import Mathlib

/-!
# OGL `StreamBuffer`: ring cursor, fence slots and strategy selection

A shallow embedding of `Source/Core/VideoBackends/OGL/StreamBuffer.cpp`.

* The object state is the record `StreamBuffer`: the dynamic class (`Strategy`), the
  members `m_buffertype`, `m_size`, `m_iterator`, `m_used_iterator`, `m_free_iterator`,
  and the sequence `gl` of OpenGL calls the object has issued so far, oldest first.
* The `fences` array is not stored: entry `i` is written only by
  `fences[i] = glFenceSync(..)` and its object is released only by
  `glDeleteSync(fences[i])`, so whether slot `i` currently holds a live marker is read
  off the call sequence (`live`).  Indices are plain naturals, so an access past the
  end of the 16-entry array shows up as a call with index `≥ SYNC_POINTS`.
* `size_t` is taken to be 64 bits wide (`SIZE_RANGE`).  The product inside the macro
  `SLOT` is reduced modulo `SIZE_RANGE`, as the code computes it.  The cursor members and
  the sums `m_iterator + size` are natural numbers: from construction and with
  `size ≤ m_size` they never exceed `2 * m_size + stride`, so they are exact for every
  capacity below `2^62`; `AlignWord` is the rounding of `Align` as computed in `size_t`
  for an arbitrary cursor value.
* `SLOT` divides by `m_size`; the code traps for `m_size = 0`, a capacity the results
  about slots are not meant for.
* An access past the end of `fences` is taken to leave the members and the 16 slots
  untouched.
-/

namespace OGL

/-! ## OpenGL interface -/

/-- Buffer binding target of vertex data. -/
def GL_ARRAY_BUFFER : Nat := 0x8892

/-- Buffer binding target of index data. -/
def GL_ELEMENT_ARRAY_BUFFER : Nat := 0x8893

/-- Binding target used by `AMD_pinned_memory`. -/
def GL_EXTERNAL_VIRTUAL_MEMORY_BUFFER_AMD : Nat := 0x9160

/-- The OpenGL calls issued by the stream buffer classes.  The three sync calls carry
the index `i` of the `fences[i]` entry they read or write. -/
inductive GLCall where
  /-- Call `glGenBuffers(1, &id)`. -/
  | GenBuffers
  /-- Call `glDeleteBuffers(1, &m_buffer)`. -/
  | DeleteBuffers
  /-- Call `glBindBuffer(target, m_buffer)`, or with buffer `0` when `own` is false. -/
  | BindBuffer (target : Nat) (own : Bool)
  /-- Call `glBufferData(target, size, ..)`: (re)allocates the buffer store. -/
  | BufferData (target size : Nat)
  /-- Call `glBufferStorage(target, size, ..)`. -/
  | BufferStorage (target size : Nat)
  /-- Call `glMapBufferRange(target, offset, length, ..)`. -/
  | MapBufferRange (target offset length : Nat)
  /-- Call `glFlushMappedBufferRange(target, offset, length)`. -/
  | FlushMappedBufferRange (target offset length : Nat)
  /-- Call `glUnmapBuffer(target)`. -/
  | UnmapBuffer (target : Nat)
  /-- Call `glBufferSubData(target, offset, size, ..)`. -/
  | BufferSubData (target offset size : Nat)
  /-- Statement `fences[i] = glFenceSync(GL_SYNC_GPU_COMMANDS_COMPLETE, 0)`. -/
  | FenceSync (i : Nat)
  /-- Call `glClientWaitSync(fences[i], GL_SYNC_FLUSH_COMMANDS_BIT, GL_TIMEOUT_IGNORED)`. -/
  | ClientWaitSync (i : Nat)
  /-- Call `glDeleteSync(fences[i])`. -/
  | DeleteSync (i : Nat)
  /-- Call `glFinish()`. -/
  | Finish
  deriving DecidableEq, Repr

/-- Effect of one call on whether `fences[i]` holds a live sync object. -/
def liveStep (i : Nat) (l : Bool) : GLCall → Bool
  | .FenceSync j => if j = i then true else l
  | .DeleteSync j => if j = i then false else l
  | _ => l

/-- Whether `fences[i]` refers to a sync object that has been created and not yet
deleted, after the calls `log`: the last `FenceSync i` / `DeleteSync i` decides. -/
def live (log : List GLCall) (i : Nat) : Bool :=
  log.foldl (liveStep i) false

/-! ## Capabilities and driver defects -/

/-- The fields of `g_ogl_config` read by `StreamBuffer::Create`. -/
structure GLConfig where
  bSupportsGLBaseVertex : Bool
  bSupportsGLSync : Bool
  bSupportsGLBufferStorage : Bool
  bSupportsGLPinnedMemory : Bool
  deriving DecidableEq, Repr

/-- The `DriverDetails` defects queried by `StreamBuffer::Create`. -/
inductive Bug where
  | BUG_BROKENBUFFERSTREAM
  | BUG_BROKENBUFFERSTORAGE
  | BUG_BROKENPINNEDMEMORY
  | BUG_BROKENUNSYNCMAPPING
  deriving DecidableEq, Repr

/-! ## The stream buffer object -/

/-- The six concrete classes derived from `StreamBuffer`. -/
inductive Strategy where
  | MapAndOrphan
  | MapAndSync
  | BufferStorage
  | PinnedMemory
  | BufferSubData
  | BufferData
  deriving DecidableEq, Repr

/-- State of a `StreamBuffer` object together with the OpenGL calls it has issued. -/
structure StreamBuffer where
  /-- Dynamic class of the object. -/
  strategy : Strategy
  m_buffertype : Nat
  m_size : Nat
  /-- Writing position. -/
  m_iterator : Nat
  /-- Last position known to be written. -/
  m_used_iterator : Nat
  /-- Last position checked if free. -/
  m_free_iterator : Nat
  /-- OpenGL calls issued so far, oldest first. -/
  gl : List GLCall
  deriving DecidableEq, Repr

/-- Number of sync slots (`static const u32 SYNC_POINTS = 16`). -/
def SYNC_POINTS : Nat := 16

/-- Number of values of `size_t` (64 bits): arithmetic in `size_t` is modulo this. -/
def SIZE_RANGE : Nat := 18446744073709551616

/-- Rounding used for the pinned allocation (`ALIGN_PINNED_MEMORY = 4096`). -/
def ALIGN_PINNED_MEMORY : Nat := 4096

/-- Macro `ROUND_UP(x, a)` of `Common`: `x` rounded up to a multiple of `a`. -/
def ROUND_UP (x a : Nat) : Nat := (x + a - 1) / a * a

/-- Indices visited by `for (i = lo; i < hi; i++)` when `hi` does not change in the
body: `lo, lo+1, .., hi-1`, none when `hi ≤ lo`. -/
def forRange (lo hi : Nat) : List Nat := List.range' lo (hi - lo)

/-- Body of the two waiting loops: wait on `fences[i]`, then delete it. -/
def waitAndDelete (i : Nat) : List GLCall := [GLCall.ClientWaitSync i, GLCall.DeleteSync i]

namespace StreamBuffer

/-- Macro `SLOT(x)`, that is `((x)*SYNC_POINTS/m_size)`, computed in `size_t`: the
product wraps at `SIZE_RANGE` before the division. -/
def SLOT (b : StreamBuffer) (x : Nat) : Nat := x * SYNC_POINTS % SIZE_RANGE / b.m_size

/-- Record the calls `cs` as issued next. -/
def issue (b : StreamBuffer) (cs : List GLCall) : StreamBuffer :=
  { b with gl := b.gl ++ cs }

/-- Base constructor `StreamBuffer::StreamBuffer(type, size)`; `k` is the derived class
being constructed. -/
def base (k : Strategy) (type size : Nat) : StreamBuffer :=
  { strategy := k, m_buffertype := type, m_size := size,
    m_iterator := 0, m_used_iterator := 0, m_free_iterator := 0,
    gl := [GLCall.GenBuffers] }

/-- Method `StreamBuffer::CreateFences`. -/
def CreateFences (b : StreamBuffer) : StreamBuffer :=
  b.issue ((forRange 0 SYNC_POINTS).map GLCall.FenceSync)

/-- Method `StreamBuffer::DeleteFences`. -/
def DeleteFences (b : StreamBuffer) : StreamBuffer :=
  let b := b.issue ((forRange (b.SLOT b.m_free_iterator + 1) SYNC_POINTS).map GLCall.DeleteSync)
  b.issue ((forRange 0 (b.SLOT b.m_iterator)).map GLCall.DeleteSync)

/-- Method `StreamBuffer::AllocMemory`.  The second loop runs while
`i <= SLOT(m_iterator + size) && i < SYNC_POINTS`, i.e. up to the smaller bound. -/
def AllocMemory (b : StreamBuffer) (size : Nat) : StreamBuffer :=
  -- insert waiting slots for used memory
  let b := b.issue ((forRange (b.SLOT b.m_used_iterator) (b.SLOT b.m_iterator)).map GLCall.FenceSync)
  let b := { b with m_used_iterator := b.m_iterator }
  -- wait for new slots to end of buffer
  let b := b.issue ((forRange (b.SLOT b.m_free_iterator + 1)
    (min (b.SLOT (b.m_iterator + size) + 1) SYNC_POINTS)).flatMap waitAndDelete)
  let b := { b with m_free_iterator := b.m_iterator + size }
  -- if buffer is full
  if b.m_iterator + size ≥ b.m_size then
    -- insert waiting slots in unused space at the end of the buffer
    let b := b.issue ((forRange (b.SLOT b.m_used_iterator) SYNC_POINTS).map GLCall.FenceSync)
    -- move to the start
    let b := { b with m_used_iterator := 0, m_iterator := 0 }
    -- wait for space at the start
    let b := b.issue ((forRange 0 (b.SLOT (b.m_iterator + size) + 1)).flatMap waitAndDelete)
    { b with m_free_iterator := b.m_iterator + size }
  else b

/-- Method `StreamBuffer::Align`. -/
def Align (b : StreamBuffer) (stride : Nat) : StreamBuffer :=
  if b.m_iterator ≠ 0 ∧ stride ≠ 0 then
    let b := { b with m_iterator := b.m_iterator - 1 }
    { b with m_iterator := b.m_iterator - (b.m_iterator % stride) + stride }
  else b

/-- Constructors of the six derived classes: `new K(type, size)`. -/
def construct (k : Strategy) (type size : Nat) : StreamBuffer :=
  let b := base k type size
  match k with
  | .MapAndOrphan =>
    b.issue [GLCall.BindBuffer b.m_buffertype true, GLCall.BufferData b.m_buffertype b.m_size]
  | .MapAndSync =>
    let b := b.CreateFences
    b.issue [GLCall.BindBuffer b.m_buffertype true, GLCall.BufferData b.m_buffertype b.m_size]
  | .BufferStorage =>
    let b := b.CreateFences
    b.issue [GLCall.BindBuffer b.m_buffertype true,
      GLCall.BufferStorage b.m_buffertype b.m_size,
      GLCall.MapBufferRange b.m_buffertype 0 b.m_size]
  | .PinnedMemory =>
    let b := b.CreateFences
    b.issue [GLCall.BindBuffer GL_EXTERNAL_VIRTUAL_MEMORY_BUFFER_AMD true,
      GLCall.BufferData GL_EXTERNAL_VIRTUAL_MEMORY_BUFFER_AMD (ROUND_UP b.m_size ALIGN_PINNED_MEMORY),
      GLCall.BindBuffer GL_EXTERNAL_VIRTUAL_MEMORY_BUFFER_AMD false,
      GLCall.BindBuffer b.m_buffertype true]
  | .BufferSubData =>
    b.issue [GLCall.BindBuffer b.m_buffertype true, GLCall.BufferData b.m_buffertype size]
  | .BufferData =>
    b.issue [GLCall.BindBuffer b.m_buffertype true]

/-- Virtual method `Map(size, stride)`: the offset returned (second component of the
C++ pair; the pointer is the mapping base plus this offset) and the state afterwards. -/
def Map (b : StreamBuffer) (size stride : Nat) : Nat × StreamBuffer :=
  match b.strategy with
  | .MapAndOrphan =>
    let b := b.Align stride
    let b :=
      if b.m_iterator + size ≥ b.m_size then
        let b := b.issue [GLCall.BufferData b.m_buffertype b.m_size]
        { b with m_iterator := 0 }
      else b
    let b := b.issue [GLCall.MapBufferRange b.m_buffertype b.m_iterator size]
    (b.m_iterator, b)
  | .MapAndSync =>
    let b := b.Align stride
    let b := b.AllocMemory size
    let b := b.issue [GLCall.MapBufferRange b.m_buffertype b.m_iterator size]
    (b.m_iterator, b)
  | .BufferStorage =>
    let b := b.Align stride
    let b := b.AllocMemory size
    (b.m_iterator, b)
  | .PinnedMemory =>
    let b := b.Align stride
    let b := b.AllocMemory size
    (b.m_iterator, b)
  | .BufferSubData => (0, b)
  | .BufferData => (0, b)

/-- Virtual method `Unmap(used_size)`. -/
def Unmap (b : StreamBuffer) (used_size : Nat) : StreamBuffer :=
  match b.strategy with
  | .MapAndOrphan =>
    let b := b.issue [GLCall.FlushMappedBufferRange b.m_buffertype 0 used_size,
      GLCall.UnmapBuffer b.m_buffertype]
    { b with m_iterator := b.m_iterator + used_size }
  | .MapAndSync =>
    let b := b.issue [GLCall.FlushMappedBufferRange b.m_buffertype 0 used_size,
      GLCall.UnmapBuffer b.m_buffertype]
    { b with m_iterator := b.m_iterator + used_size }
  | .BufferStorage => { b with m_iterator := b.m_iterator + used_size }
  | .PinnedMemory => { b with m_iterator := b.m_iterator + used_size }
  | .BufferSubData => b.issue [GLCall.BufferSubData b.m_buffertype 0 used_size]
  | .BufferData => b.issue [GLCall.BufferData b.m_buffertype used_size]

/-- Destructor of the dynamic class followed by `StreamBuffer::~StreamBuffer`. -/
def destroy (b : StreamBuffer) : StreamBuffer :=
  let b :=
    match b.strategy with
    | .MapAndOrphan => b
    | .MapAndSync => b.DeleteFences
    | .BufferStorage =>
      let b := b.DeleteFences
      b.issue [GLCall.UnmapBuffer b.m_buffertype, GLCall.BindBuffer b.m_buffertype false]
    | .PinnedMemory =>
      let b := b.DeleteFences
      b.issue [GLCall.BindBuffer b.m_buffertype false, GLCall.Finish]
    | .BufferSubData => b
    | .BufferData => b
  b.issue [GLCall.DeleteBuffers]

/-- Static method `StreamBuffer::Create(type, size)`, with `g_ogl_config` and
`DriverDetails::HasBug` passed explicitly. -/
def Create (cfg : GLConfig) (HasBug : Bug → Bool) (type size : Nat) : StreamBuffer :=
  -- without basevertex support, only streaming methods which upload everything to zero work
  if !cfg.bSupportsGLBaseVertex then
    if !HasBug Bug.BUG_BROKENBUFFERSTREAM then
      construct .BufferSubData type size
    else
      -- BufferData is by far the worst way, only use it if needed
      construct .BufferData type size
  -- prefer the syncing buffers over the orphaning one
  else if cfg.bSupportsGLSync then
    -- try to use buffer storage whenever possible
    if cfg.bSupportsGLBufferStorage &&
        !(HasBug Bug.BUG_BROKENBUFFERSTORAGE && type == GL_ARRAY_BUFFER) then
      construct .BufferStorage type size
    -- pinned memory is almost as fine
    else if cfg.bSupportsGLPinnedMemory &&
        !(HasBug Bug.BUG_BROKENPINNEDMEMORY && type == GL_ELEMENT_ARRAY_BUFFER) then
      construct .PinnedMemory type size
    -- don't fall back to MapAnd* for nvidia drivers
    else if HasBug Bug.BUG_BROKENUNSYNCMAPPING then
      construct .BufferSubData type size
    -- mapping fallback
    else if cfg.bSupportsGLSync then
      construct .MapAndSync type size
    else
      -- default fallback
      construct .MapAndOrphan type size
  else
    -- default fallback, should work everywhere
    construct .MapAndOrphan type size

end StreamBuffer

/-! ## Vocabulary of the specification -/

/-- The strategies that keep one fence per slot (their constructors call `CreateFences`,
their `Map` calls `AllocMemory`): Fence-Synced Mapped, Persistent Mapped and Pinned
Host Memory. -/
def Strategy.fenceSynced : Strategy → Bool
  | .MapAndSync => true
  | .BufferStorage => true
  | .PinnedMemory => true
  | _ => false

/-- One `Map(size, stride)` / `Unmap(used)` pair issued by the caller. -/
structure Cycle where
  size : Nat
  stride : Nat
  used : Nat
  deriving DecidableEq, Repr

namespace StreamBuffer

/-- One `Map(size, stride)` followed by the matching `Unmap(used)`. -/
def cycle (b : StreamBuffer) (c : Cycle) : StreamBuffer :=
  (b.Map c.size c.stride).2.Unmap c.used

/-- A sequence of `Map`/`Unmap` pairs, executed in order. -/
def run (b : StreamBuffer) (cs : List Cycle) : StreamBuffer :=
  cs.foldl cycle b

end StreamBuffer

/-- The buffer of the scenarios: Fence-Synced Mapped, capacity 1024 bytes (16 slots of
64 bytes), vertex role, freshly constructed. -/
def scenarioBuffer : StreamBuffer :=
  StreamBuffer.construct Strategy.MapAndSync GL_ARRAY_BUFFER 1024

/-- Every `glDeleteSync(fences[i])` in the call sequence `l` comes directly after a
`glClientWaitSync(fences[i], ..)` on the same slot. -/
def waitsBeforeDeletes (l : List GLCall) : Prop :=
  ∀ (p q : List GLCall) (i : Nat), l = p ++ GLCall.DeleteSync i :: q →
    ∃ p' : List GLCall, p = p' ++ [GLCall.ClientWaitSync i]

/-- The calls issued between a state `b` of an object and a later state `b'` of it. -/
def callsSince (b b' : StreamBuffer) : List GLCall :=
  b'.gl.drop b.gl.length

/-- Slots `i` for which, among the calls `cs` issued after `past`, the statement
`fences[i] = glFenceSync(..)` was executed while `fences[i]` still held a live marker,
in order of occurrence: that marker is lost without having been deleted. -/
def overwrittenMarkers (past : List GLCall) : List GLCall → List Nat
  | [] => []
  | GLCall.FenceSync i :: cs =>
    (if live past i then [i] else []) ++ overwrittenMarkers (past ++ [GLCall.FenceSync i]) cs
  | c :: cs => overwrittenMarkers (past ++ [c]) cs

/-- Slots `i` for which, among the calls `cs` issued after `past`,
`glDeleteSync(fences[i])` was executed while `fences[i]` held no live marker, in order
of occurrence. -/
def staleDeletes (past : List GLCall) : List GLCall → List Nat
  | [] => []
  | GLCall.DeleteSync i :: cs =>
    (if live past i then [] else [i]) ++ staleDeletes (past ++ [GLCall.DeleteSync i]) cs
  | c :: cs => staleDeletes (past ++ [c]) cs

/-- Slots `i` for which, among the calls `cs` issued after `past`,
`glClientWaitSync(fences[i], ..)` was executed while `fences[i]` held no live marker, in
order of occurrence. -/
def staleWaits (past : List GLCall) : List GLCall → List Nat
  | [] => []
  | GLCall.ClientWaitSync i :: cs =>
    (if live past i then [] else [i]) ++ staleWaits (past ++ [GLCall.ClientWaitSync i]) cs
  | c :: cs => staleWaits (past ++ [c]) cs

/-- The index into `fences` that a call uses, for the three sync calls. -/
def GLCall.fenceIndex : GLCall → Option Nat
  | GLCall.FenceSync i => some i
  | GLCall.ClientWaitSync i => some i
  | GLCall.DeleteSync i => some i
  | _ => none

/-- The indices into `fences` used by the calls `cs`, in order of occurrence. -/
def fenceIndices (cs : List GLCall) : List Nat :=
  cs.filterMap GLCall.fenceIndex

/-- The rounding of `StreamBuffer::Align` as computed in `size_t` on a cursor value `w`
and a stride: the decrement, the subtraction and the addition are each reduced modulo
`SIZE_RANGE`.  The result is the new cursor. -/
def AlignWord (w stride : Nat) : Nat :=
  if w ≠ 0 ∧ stride ≠ 0 then
    let m := (w + SIZE_RANGE - 1) % SIZE_RANGE
    ((m + SIZE_RANGE - m % stride) % SIZE_RANGE + stride) % SIZE_RANGE
  else w

/-- Line 367 of the source: persistent storage counts as defective for a buffer of
binding target `type` when `BUG_BROKENBUFFERSTORAGE` is flagged and the buffer is a
vertex buffer. -/
def storageDefectiveFor (HasBug : Bug → Bool) (type : Nat) : Bool :=
  HasBug Bug.BUG_BROKENBUFFERSTORAGE && type == GL_ARRAY_BUFFER

/-- Line 372 of the source: pinned memory counts as defective for a buffer of binding
target `type` when `BUG_BROKENPINNEDMEMORY` is flagged and the buffer is an index
buffer. -/
def pinnedDefectiveFor (HasBug : Bug → Bool) (type : Nat) : Bool :=
  HasBug Bug.BUG_BROKENPINNEDMEMORY && type == GL_ELEMENT_ARRAY_BUFFER

/-- Preference order of section 4.4, item 3, in the words of the specification:
Persistent Mapped unless unavailable or defective for the role, then Pinned Host
Memory unless unavailable or defective for the role, then Staging Copy if
unsynchronized mapping is defective, else Fence-Synced Mapped. -/
def preferenceOrder (cfg : GLConfig) (HasBug : Bug → Bool) (type : Nat) : Strategy :=
  if cfg.bSupportsGLBufferStorage = true ∧ storageDefectiveFor HasBug type = false then
    Strategy.BufferStorage
  else if cfg.bSupportsGLPinnedMemory = true ∧ pinnedDefectiveFor HasBug type = false then
    Strategy.PinnedMemory
  else if HasBug Bug.BUG_BROKENUNSYNCMAPPING = true then
    Strategy.BufferSubData
  else
    Strategy.MapAndSync

/-! ## Theorems -/

namespace StreamBuffer

/-! ### Frame facts -/

theorem Align_strategy (b : StreamBuffer) (stride : Nat) :
    (b.Align stride).strategy = b.strategy := by
  unfold Align; split <;> rfl

theorem Align_gl (b : StreamBuffer) (stride : Nat) :
    (b.Align stride).gl = b.gl := by
  unfold Align; split <;> rfl

/-- The cursor computed by `Align`, as a function of the old cursor and the stride. -/
theorem Align_m_iterator (b : StreamBuffer) (stride : Nat) :
    (b.Align stride).m_iterator =
      if b.m_iterator ≠ 0 ∧ stride ≠ 0 then
        b.m_iterator - 1 - (b.m_iterator - 1) % stride + stride
      else b.m_iterator := by
  unfold Align; split <;> rfl

/-- Rounding `w - 1` down to a multiple of `s` and adding `s` gives a multiple of `s`. -/
theorem dvd_roundup (w s : Nat) : s ∣ w - 1 - (w - 1) % s + s := by
  have h : s ∣ w - 1 - (w - 1) % s := Nat.dvd_sub_mod (w - 1)
  exact Dvd.dvd.add h (dvd_refl s)

theorem le_roundup (w s : Nat) (hs : s ≠ 0) : w ≤ w - 1 - (w - 1) % s + s := by
  have h1 : (w - 1) % s < s := Nat.mod_lt _ (Nat.pos_of_ne_zero hs)
  have h2 : (w - 1) % s ≤ w - 1 := Nat.mod_le _ _
  omega

theorem roundup_lt (w s : Nat) (hw : w ≠ 0) : w - 1 - (w - 1) % s + s < w + s := by
  have h2 : (w - 1) % s ≤ w - 1 := Nat.mod_le _ _
  omega

/-- Any multiple of `s` that is at least `w` is at least the rounded value. -/
theorem roundup_le_of_dvd (w s m : Nat) (hw : w ≠ 0) (hm : s ∣ m) (hwm : w ≤ m) :
    w - 1 - (w - 1) % s + s ≤ m := by
  obtain ⟨k, rfl⟩ := hm
  have hdm := Nat.div_add_mod (w - 1) s
  have hsub : w - 1 - (w - 1) % s = s * ((w - 1) / s) := by omega
  rw [hsub]
  have hlt : (w - 1) / s < k := by
    by_contra hcon
    have hle : k ≤ (w - 1) / s := Nat.le_of_not_lt hcon
    have : s * k ≤ s * ((w - 1) / s) := Nat.mul_le_mul_left s hle
    omega
  calc s * ((w - 1) / s) + s = s * ((w - 1) / s + 1) := by ring
    _ ≤ s * k := Nat.mul_le_mul_left s hlt

/-- The state after `AllocMemory(size)`, with the four loops written out in terms of the
state at entry. -/
theorem AllocMemory_eq (b : StreamBuffer) (size : Nat) :
    b.AllocMemory size =
      if b.m_iterator + size ≥ b.m_size then
        { b with
          m_iterator := 0, m_used_iterator := 0, m_free_iterator := size,
          gl := b.gl
            ++ (forRange (b.SLOT b.m_used_iterator) (b.SLOT b.m_iterator)).map GLCall.FenceSync
            ++ (forRange (b.SLOT b.m_free_iterator + 1)
                (min (b.SLOT (b.m_iterator + size) + 1) SYNC_POINTS)).flatMap waitAndDelete
            ++ (forRange (b.SLOT b.m_iterator) SYNC_POINTS).map GLCall.FenceSync
            ++ (forRange 0 (b.SLOT size + 1)).flatMap waitAndDelete }
      else
        { b with
          m_used_iterator := b.m_iterator, m_free_iterator := b.m_iterator + size,
          gl := b.gl
            ++ (forRange (b.SLOT b.m_used_iterator) (b.SLOT b.m_iterator)).map GLCall.FenceSync
            ++ (forRange (b.SLOT b.m_free_iterator + 1)
                (min (b.SLOT (b.m_iterator + size) + 1) SYNC_POINTS)).flatMap waitAndDelete } := by
  unfold AllocMemory
  simp only [issue, SLOT, ge_iff_le, Nat.zero_add, List.append_assoc]

theorem AllocMemory_strategy (b : StreamBuffer) (size : Nat) :
    (b.AllocMemory size).strategy = b.strategy := by
  rw [AllocMemory_eq]; split <;> rfl

theorem AllocMemory_m_iterator (b : StreamBuffer) (size : Nat) :
    (b.AllocMemory size).m_iterator =
      if b.m_iterator + size ≥ b.m_size then 0 else b.m_iterator := by
  rw [AllocMemory_eq]; split <;> rfl

theorem AllocMemory_used (b : StreamBuffer) (size : Nat) :
    (b.AllocMemory size).m_used_iterator =
      if b.m_iterator + size ≥ b.m_size then 0 else b.m_iterator := by
  rw [AllocMemory_eq]; split <;> rfl

theorem AllocMemory_free (b : StreamBuffer) (size : Nat) :
    (b.AllocMemory size).m_free_iterator =
      if b.m_iterator + size ≥ b.m_size then size else b.m_iterator + size := by
  rw [AllocMemory_eq]; split <;> rfl

/-! ### `Map` and `Unmap` by class -/

/-- The call, if any, that `Map` issues after `AllocMemory` in a fence-synced class. -/
theorem Map_fenceSynced (b : StreamBuffer) (size stride : Nat)
    (hk : b.strategy.fenceSynced = true) :
    ∃ extra : List GLCall,
      (extra = [] ∨ ∃ t o n, extra = [GLCall.MapBufferRange t o n]) ∧
      b.Map size stride =
        (((b.Align stride).AllocMemory size).m_iterator,
          ((b.Align stride).AllocMemory size).issue extra) := by
  unfold Map
  cases hs : b.strategy <;> simp only [hs, Strategy.fenceSynced] at hk ⊢
  · exact absurd hk (by decide)
  · exact ⟨[_], Or.inr ⟨_, _, _, rfl⟩, rfl⟩
  · exact ⟨[], Or.inl rfl, by simp [issue]⟩
  · exact ⟨[], Or.inl rfl, by simp [issue]⟩
  · exact absurd hk (by decide)
  · exact absurd hk (by decide)

theorem Map_strategy (b : StreamBuffer) (size stride : Nat) :
    (b.Map size stride).2.strategy = b.strategy := by
  unfold Map
  cases hs : b.strategy <;>
    simp only [issue, AllocMemory_strategy, Align_strategy, hs]
  split <;> simp [Align_strategy, hs]

theorem Unmap_strategy (b : StreamBuffer) (used : Nat) :
    (b.Unmap used).strategy = b.strategy := by
  unfold Unmap
  cases hs : b.strategy <;> simp [issue, hs]

theorem cycle_strategy (b : StreamBuffer) (c : Cycle) :
    (b.cycle c).strategy = b.strategy := by
  unfold cycle; rw [Unmap_strategy, Map_strategy]

theorem run_strategy (b : StreamBuffer) (cs : List Cycle) :
    (b.run cs).strategy = b.strategy := by
  induction cs generalizing b with
  | nil => rfl
  | cons c cs ih =>
    show ((b.cycle c).run cs).strategy = b.strategy
    rw [ih, cycle_strategy]

theorem construct_strategy (k : Strategy) (type size : Nat) :
    (construct k type size).strategy = k := by
  cases k <;> rfl

/-- The rounding of `Align` on the unbounded cursor of the model: with cursor and stride
non-zero the new cursor is the least multiple of the stride at or above the old one;
with either zero it is unchanged. -/
theorem Align_least_multiple_model (b : StreamBuffer) (stride : Nat) :
    (b.m_iterator ≠ 0 ∧ stride ≠ 0 →
      IsLeast {m | stride ∣ m ∧ b.m_iterator ≤ m} (b.Align stride).m_iterator ∧
      (stride ∣ b.m_iterator → (b.Align stride).m_iterator = b.m_iterator) ∧
      b.m_iterator ≤ (b.Align stride).m_iterator ∧
      (b.Align stride).m_iterator < b.m_iterator + stride) ∧
    (b.m_iterator = 0 ∨ stride = 0 → (b.Align stride).m_iterator = b.m_iterator) := by
  constructor
  · intro h
    have hv : (b.Align stride).m_iterator =
        b.m_iterator - 1 - (b.m_iterator - 1) % stride + stride := by
      rw [Align_m_iterator, if_pos h]
    have hleast : IsLeast {m | stride ∣ m ∧ b.m_iterator ≤ m} (b.Align stride).m_iterator := by
      rw [hv]
      refine ⟨⟨dvd_roundup _ _, le_roundup _ _ h.2⟩, ?_⟩
      intro m hm
      exact roundup_le_of_dvd _ _ m h.1 hm.1 hm.2
    refine ⟨hleast, ?_, hleast.1.2, ?_⟩
    · intro hd
      exact le_antisymm (hleast.2 ⟨hd, le_refl _⟩) hleast.1.2
    · rw [hv]
      exact roundup_lt _ _ h.1
  · intro h
    rw [Align_m_iterator, if_neg]
    intro hc
    rcases h with h | h
    · exact hc.1 h
    · exact hc.2 h

/-- In `size_t` the rounding agrees with the unbounded one as long as the rounded value
is below `SIZE_RANGE`. -/
theorem AlignWord_eq (w s : Nat) (hw : w ≠ 0) (hs : s ≠ 0) (hlt : w < SIZE_RANGE)
    (hfit : w - 1 - (w - 1) % s + s < SIZE_RANGE) :
    AlignWord w s = w - 1 - (w - 1) % s + s := by
  have hm : (w + SIZE_RANGE - 1) % SIZE_RANGE = w - 1 := by
    have h1 : w + SIZE_RANGE - 1 = (w - 1) + SIZE_RANGE := by omega
    rw [h1, Nat.add_mod_right, Nat.mod_eq_of_lt (by omega)]
  have hr : (w - 1) % s ≤ w - 1 := Nat.mod_le _ _
  have hsub : (w - 1 + SIZE_RANGE - (w - 1) % s) % SIZE_RANGE = w - 1 - (w - 1) % s := by
    have h2 : w - 1 + SIZE_RANGE - (w - 1) % s = (w - 1 - (w - 1) % s) + SIZE_RANGE := by omega
    rw [h2, Nat.add_mod_right, Nat.mod_eq_of_lt (by omega)]
  unfold AlignWord
  rw [if_pos ⟨hw, hs⟩]
  simp only [hm, hsub]
  exact Nat.mod_eq_of_lt hfit

/-- C6, counterexample. With the cursor at the largest `size_t` value `2^64 - 1` and
stride 2 the rounding wraps: the new cursor is 0, which is below the old cursor and so
is not the least multiple of 2 at or above it. -/
theorem AlignWord_wrap_counterexample :
    (18446744073709551615 : Nat) ≠ 0 ∧ (2 : Nat) ≠ 0 ∧
      18446744073709551615 < SIZE_RANGE ∧
      AlignWord 18446744073709551615 2 = 0 ∧
      ¬ (18446744073709551615 ≤ AlignWord 18446744073709551615 2) := by
  decide

/-- C6, amended. `Align(stride)` as computed in `size_t`: for every cursor value `w` and
stride `s`, if both are non-zero and some multiple of `s` at or above `w` is a `size_t`
value, the new cursor is the least multiple of `s` that is at least `w` (so an aligned
cursor is unchanged, the cursor never decreases and never advances by `s` or more), and
it is the cursor that `Align` leaves in the object; if `w = 0` or `s = 0` the cursor is
unchanged. -/
theorem AlignWord_least_multiple (w s : Nat) (hlt : w < SIZE_RANGE) :
    (w ≠ 0 ∧ s ≠ 0 → (∃ m, s ∣ m ∧ w ≤ m ∧ m < SIZE_RANGE) →
      IsLeast {m | s ∣ m ∧ w ≤ m} (AlignWord w s) ∧
      (s ∣ w → AlignWord w s = w) ∧
      w ≤ AlignWord w s ∧
      AlignWord w s < w + s ∧
      (∀ b : StreamBuffer, b.m_iterator = w → (b.Align s).m_iterator = AlignWord w s)) ∧
    (w = 0 ∨ s = 0 → AlignWord w s = w) := by
  constructor
  · rintro ⟨hw, hs⟩ ⟨m, hm1, hm2, hm3⟩
    have hfit : w - 1 - (w - 1) % s + s < SIZE_RANGE :=
      lt_of_le_of_lt (roundup_le_of_dvd w s m hw hm1 hm2) hm3
    have hv := AlignWord_eq w s hw hs hlt hfit
    have hleast : IsLeast {m | s ∣ m ∧ w ≤ m} (AlignWord w s) := by
      rw [hv]
      refine ⟨⟨dvd_roundup _ _, le_roundup _ _ hs⟩, ?_⟩
      intro k hk
      exact roundup_le_of_dvd _ _ k hw hk.1 hk.2
    refine ⟨hleast, ?_, hleast.1.2, ?_, ?_⟩
    · intro hd
      exact le_antisymm (hleast.2 ⟨hd, le_refl _⟩) hleast.1.2
    · rw [hv]
      exact roundup_lt _ _ hw
    · intro b hb
      rw [Align_m_iterator, hb, if_pos ⟨hw, hs⟩, hv]
  · intro h
    unfold AlignWord
    rw [if_neg]
    intro hc
    rcases h with h | h
    · exact hc.1 h
    · exact hc.2 h

/-- Witness for C6 (amended): with the cursor at 98 and stride 4 the cursor moves to 100,
the least multiple of 4 from 98 on, as in the object; with stride 0 it stays at 98. -/
theorem AlignWord_least_multiple_witness :
    (98 : Nat) < SIZE_RANGE ∧ ((98 : Nat) ≠ 0 ∧ (4 : Nat) ≠ 0) ∧
      (∃ m, 4 ∣ m ∧ 98 ≤ m ∧ m < SIZE_RANGE) ∧
      (scenarioBuffer.cycle ⟨98, 1, 98⟩).m_iterator = 98 ∧
      AlignWord 98 4 = 100 ∧
      IsLeast {m | 4 ∣ m ∧ 98 ≤ m} (AlignWord 98 4) ∧
      ((scenarioBuffer.cycle ⟨98, 1, 98⟩).Align 4).m_iterator = AlignWord 98 4 ∧
      AlignWord 98 0 = 98 :=
  ⟨by decide, ⟨by decide, by decide⟩, ⟨100, by decide, by decide, by decide⟩, by decide,
    by decide,
    ((AlignWord_least_multiple 98 4 (by decide)).1 ⟨by decide, by decide⟩
      ⟨100, by decide, by decide, by decide⟩).1,
    ((AlignWord_least_multiple 98 4 (by decide)).1 ⟨by decide, by decide⟩
      ⟨100, by decide, by decide, by decide⟩).2.2.2.2 _ (by decide),
    (AlignWord_least_multiple 98 0 (by decide)).2 (Or.inr rfl)⟩

/-! ### Strategy selection -/

/-- With base-vertex and sync supported `Create` constructs the class given by the
preference order. -/
theorem Create_eq_preferenceOrder (cfg : GLConfig) (HasBug : Bug → Bool) (type size : Nat)
    (hbv : cfg.bSupportsGLBaseVertex = true) (hsync : cfg.bSupportsGLSync = true) :
    Create cfg HasBug type size = construct (preferenceOrder cfg HasBug type) type size := by
  unfold Create preferenceOrder storageDefectiveFor pinnedDefectiveFor
  simp only [hbv, hsync]
  cases cfg.bSupportsGLBufferStorage <;> cases cfg.bSupportsGLPinnedMemory <;>
    cases HasBug Bug.BUG_BROKENBUFFERSTORAGE <;> cases HasBug Bug.BUG_BROKENPINNEDMEMORY <;>
    cases HasBug Bug.BUG_BROKENUNSYNCMAPPING <;>
    cases type == GL_ARRAY_BUFFER <;> cases type == GL_ELEMENT_ARRAY_BUFFER <;> rfl

/-- Without base-vertex support `Create` looks at `BUG_BROKENBUFFERSTREAM` only. -/
theorem Create_eq_of_no_base_vertex (cfg : GLConfig) (HasBug : Bug → Bool) (type size : Nat)
    (hbv : cfg.bSupportsGLBaseVertex = false) :
    Create cfg HasBug type size =
      construct (if HasBug Bug.BUG_BROKENBUFFERSTREAM = true then Strategy.BufferData
        else Strategy.BufferSubData) type size := by
  unfold Create
  simp only [hbv]
  cases HasBug Bug.BUG_BROKENBUFFERSTREAM <;> rfl

/-- C7. Strategy Selector preference order: for every descriptor with base-vertex and
sync both supported, every defect table, role and size, `Create` constructs the class
given by the preference order of the specification: Persistent Mapped if persistent
storage is supported and not defective for the role, otherwise Pinned Host Memory if
pinned memory is supported and not defective for the role, otherwise Staging Copy if
unsynchronized mapping is defective, otherwise Fence-Synced Mapped. -/
theorem Create_preference_order (cfg : GLConfig) (HasBug : Bug → Bool) (type size : Nat)
    (hbv : cfg.bSupportsGLBaseVertex = true) (hsync : cfg.bSupportsGLSync = true) :
    Create cfg HasBug type size = construct (preferenceOrder cfg HasBug type) type size ∧
      (Create cfg HasBug type size).strategy = preferenceOrder cfg HasBug type := by
  have h := Create_eq_preferenceOrder cfg HasBug type size hbv hsync
  exact ⟨h, by rw [h, construct_strategy]⟩

/-- Witness for C7: everything supported and no defect flagged gives Persistent Mapped. -/
theorem Create_preference_order_witness :
    (Create ⟨true, true, true, true⟩ (fun _ => false) GL_ARRAY_BUFFER 1024).strategy =
      Strategy.BufferStorage :=
  (Create_preference_order ⟨true, true, true, true⟩ (fun _ => false) GL_ARRAY_BUFFER 1024
    rfl rfl).2

/-- C8. Strategy Selector without base-vertex support: for every descriptor in which
base-vertex is unsupported, `Create` constructs Staging Copy when the
broken-buffer-streaming defect is absent and Full Reupload when it is present; no other
capability, defect flag or the role enters the choice. -/
theorem Create_without_base_vertex (cfg : GLConfig) (HasBug : Bug → Bool) (type size : Nat)
    (hbv : cfg.bSupportsGLBaseVertex = false) :
    Create cfg HasBug type size =
        construct (if HasBug Bug.BUG_BROKENBUFFERSTREAM = true then Strategy.BufferData
          else Strategy.BufferSubData) type size ∧
      (Create cfg HasBug type size).strategy =
        (if HasBug Bug.BUG_BROKENBUFFERSTREAM = true then Strategy.BufferData
          else Strategy.BufferSubData) := by
  have h := Create_eq_of_no_base_vertex cfg HasBug type size hbv
  exact ⟨h, by rw [h, construct_strategy]⟩

/-- Witness for C8: no base-vertex support, everything else supported, only the
broken-buffer-streaming defect flagged, index role: Full Reupload. -/
theorem Create_without_base_vertex_witness :
    (Create ⟨false, true, true, true⟩ (fun g => decide (g = Bug.BUG_BROKENBUFFERSTREAM))
      GL_ELEMENT_ARRAY_BUFFER 4096).strategy = Strategy.BufferData :=
  (Create_without_base_vertex ⟨false, true, true, true⟩
    (fun g => decide (g = Bug.BUG_BROKENBUFFERSTREAM)) GL_ELEMENT_ARRAY_BUFFER 4096 rfl).2

/-- C9, counterexample. A descriptor with no sync support and no persistent-storage
support, but also without base-vertex support: `Create` selects Staging Copy, not
Orphaning. -/
theorem Create_without_sync_counterexample :
    (⟨false, false, false, false⟩ : GLConfig).bSupportsGLSync = false ∧
      (⟨false, false, false, false⟩ : GLConfig).bSupportsGLBufferStorage = false ∧
      (Create ⟨false, false, false, false⟩ (fun _ => false) GL_ARRAY_BUFFER 1024).strategy =
        Strategy.BufferSubData ∧
      (Create ⟨false, false, false, false⟩ (fun _ => false) GL_ARRAY_BUFFER 1024).strategy ≠
        Strategy.MapAndOrphan := by
  decide

/-- C9, amended. For every descriptor that reports base-vertex support, no sync support
and no persistent-storage support, `Create` constructs Orphaning whatever the other
flags (pinned-memory support, every defect flag, role); without base-vertex support it
never selects Orphaning. -/
theorem Create_without_sync (cfg : GLConfig) (HasBug : Bug → Bool) (type size : Nat)
    (hsync : cfg.bSupportsGLSync = false) (_hst : cfg.bSupportsGLBufferStorage = false) :
    (cfg.bSupportsGLBaseVertex = true →
      Create cfg HasBug type size = construct Strategy.MapAndOrphan type size ∧
      (Create cfg HasBug type size).strategy = Strategy.MapAndOrphan) ∧
    (cfg.bSupportsGLBaseVertex = false →
      (Create cfg HasBug type size).strategy ≠ Strategy.MapAndOrphan) := by
  constructor
  · intro hbv
    have h : Create cfg HasBug type size = construct Strategy.MapAndOrphan type size := by
      unfold Create
      simp [hbv, hsync]
    exact ⟨h, by rw [h, construct_strategy]⟩
  · intro hbv
    rw [Create_eq_of_no_base_vertex cfg HasBug type size hbv, construct_strategy]
    split <;> decide

/-- Witness for C9 (amended): base-vertex and pinned memory supported, no sync, no
persistent storage, every defect flagged, index role: Orphaning. -/
theorem Create_without_sync_witness :
    (Create ⟨true, false, false, true⟩ (fun _ => true) GL_ELEMENT_ARRAY_BUFFER 1024).strategy =
      Strategy.MapAndOrphan :=
  ((Create_without_sync ⟨true, false, false, true⟩ (fun _ => true) GL_ELEMENT_ARRAY_BUFFER 1024
    rfl rfl).1 rfl).2

/-- C10, counterexample. Vertex role, base-vertex, sync and persistent storage supported,
persistent storage flagged defective, pinned memory unsupported and unsynchronized
mapping flagged defective: `Create` selects Staging Copy, which is neither Pinned Host
Memory nor Fence-Synced Mapped. -/
theorem Create_defective_storage_counterexample :
    (Create ⟨true, true, true, false⟩
        (fun g => decide (g = Bug.BUG_BROKENBUFFERSTORAGE ∨ g = Bug.BUG_BROKENUNSYNCMAPPING))
        GL_ARRAY_BUFFER 1024).strategy = Strategy.BufferSubData ∧
      ¬ ((Create ⟨true, true, true, false⟩
        (fun g => decide (g = Bug.BUG_BROKENBUFFERSTORAGE ∨ g = Bug.BUG_BROKENUNSYNCMAPPING))
        GL_ARRAY_BUFFER 1024).strategy = Strategy.PinnedMemory ∨
        (Create ⟨true, true, true, false⟩
        (fun g => decide (g = Bug.BUG_BROKENBUFFERSTORAGE ∨ g = Bug.BUG_BROKENUNSYNCMAPPING))
        GL_ARRAY_BUFFER 1024).strategy = Strategy.MapAndSync) := by
  decide

/-- C10, amended. For a vertex-role buffer and every descriptor with base-vertex and
sync supported in which persistent storage is supported but flagged defective, `Create`
does not select Persistent Mapped; it selects Pinned Host Memory if pinned memory is
supported, otherwise Staging Copy if unsynchronized mapping is flagged defective,
otherwise Fence-Synced Mapped. -/
theorem Create_defective_storage (cfg : GLConfig) (HasBug : Bug → Bool) (size : Nat)
    (hbv : cfg.bSupportsGLBaseVertex = true) (hsync : cfg.bSupportsGLSync = true)
    (hst : cfg.bSupportsGLBufferStorage = true)
    (hbug : HasBug Bug.BUG_BROKENBUFFERSTORAGE = true) :
    (Create cfg HasBug GL_ARRAY_BUFFER size).strategy ≠ Strategy.BufferStorage ∧
      (Create cfg HasBug GL_ARRAY_BUFFER size).strategy =
        (if cfg.bSupportsGLPinnedMemory = true then Strategy.PinnedMemory
          else if HasBug Bug.BUG_BROKENUNSYNCMAPPING = true then Strategy.BufferSubData
          else Strategy.MapAndSync) := by
  have h : (Create cfg HasBug GL_ARRAY_BUFFER size).strategy =
      (if cfg.bSupportsGLPinnedMemory = true then Strategy.PinnedMemory
        else if HasBug Bug.BUG_BROKENUNSYNCMAPPING = true then Strategy.BufferSubData
        else Strategy.MapAndSync) := by
    rw [Create_eq_preferenceOrder cfg HasBug GL_ARRAY_BUFFER size hbv hsync, construct_strategy]
    unfold preferenceOrder storageDefectiveFor pinnedDefectiveFor
    simp only [hst, hbug]
    cases cfg.bSupportsGLPinnedMemory <;> cases HasBug Bug.BUG_BROKENPINNEDMEMORY <;>
      cases HasBug Bug.BUG_BROKENUNSYNCMAPPING <;> decide
  refine ⟨?_, h⟩
  rw [h]
  split
  · decide
  · split <;> decide

/-- Witness for C10 (amended): with pinned memory supported the defective persistent
storage is skipped in favour of Pinned Host Memory. -/
theorem Create_defective_storage_witness :
    (Create ⟨true, true, true, true⟩ (fun g => decide (g = Bug.BUG_BROKENBUFFERSTORAGE))
      GL_ARRAY_BUFFER 1024).strategy = Strategy.PinnedMemory :=
  (Create_defective_storage ⟨true, true, true, true⟩
    (fun g => decide (g = Bug.BUG_BROKENBUFFERSTORAGE)) 1024 rfl rfl rfl rfl).2

/-! ### Offsets along a run -/

theorem mem_forRange (lo hi i : Nat) : i ∈ forRange lo hi ↔ lo ≤ i ∧ i < hi := by
  unfold forRange
  rw [List.mem_range'_1]
  omega

theorem live_append (log cs : List GLCall) (i : Nat) :
    live (log ++ cs) i = cs.foldl (liveStep i) (live log i) := by
  unfold live
  rw [List.foldl_append]

/-- Creating markers for the slots `js` makes exactly those slots live. -/
theorem foldl_liveStep_fences (js : List Nat) (i : Nat) (l : Bool) :
    (js.map GLCall.FenceSync).foldl (liveStep i) l = if i ∈ js then true else l := by
  induction js generalizing l with
  | nil => simp
  | cons j js ih =>
    rw [List.map_cons, List.foldl_cons, ih]
    by_cases hi : i ∈ js
    · simp [hi]
    · by_cases hj : j = i
      · simp [hj, liveStep]
      · have hij : ¬ i = j := fun h => hj h.symm
        simp [hi, hj, hij, liveStep]

/-- Waiting on and deleting the markers of the slots `js` leaves exactly those slots
without a live marker. -/
theorem foldl_liveStep_waits (js : List Nat) (i : Nat) (l : Bool) :
    (js.flatMap waitAndDelete).foldl (liveStep i) l = if i ∈ js then false else l := by
  induction js generalizing l with
  | nil => simp
  | cons j js ih =>
    rw [List.flatMap_cons, List.foldl_append, ih]
    by_cases hi : i ∈ js
    · simp [hi]
    · by_cases hj : j = i
      · simp [hj, liveStep, waitAndDelete]
      · have hij : ¬ i = j := fun h => hj h.symm
        simp [hi, hj, hij, liveStep, waitAndDelete]

theorem not_mem_fences_of_not_mem (js : List Nat) (i : Nat) (h : i ∉ js) :
    GLCall.FenceSync i ∉ js.map GLCall.FenceSync := by
  intro hc
  obtain ⟨j, hj, hji⟩ := List.mem_map.mp hc
  have : j = i := by injection hji
  exact h (this ▸ hj)

theorem not_mem_waits (js : List Nat) (i : Nat) :
    GLCall.FenceSync i ∉ js.flatMap waitAndDelete := by
  intro hc
  obtain ⟨j, -, hj⟩ := List.mem_flatMap.mp hc
  simp [waitAndDelete] at hj

/-- Offsets inside the buffer lie in slots `0 .. 15`. -/
theorem SLOT_lt (b : StreamBuffer) {x : Nat} (h : x < b.m_size) : b.SLOT x < SYNC_POINTS := by
  unfold SLOT
  apply Nat.div_lt_of_lt_mul
  exact lt_of_le_of_lt (Nat.mod_le _ _) (Nat.mul_lt_mul_of_pos_right h (by decide))

/-! ### Cursor positions after `Map` -/

theorem waitsBeforeDeletes_of_no_delete (l : List GLCall)
    (h : ∀ i, GLCall.DeleteSync i ∉ l) : waitsBeforeDeletes l := by
  intro p q i hl
  exfalso
  apply h i
  rw [hl]
  simp

theorem waitsBeforeDeletes_append (a c : List GLCall)
    (ha : waitsBeforeDeletes a) (hc : waitsBeforeDeletes c) : waitsBeforeDeletes (a ++ c) := by
  intro p q i hl
  rcases List.append_eq_append_iff.mp hl with ⟨a', hp, hca⟩ | ⟨c', hap, hq⟩
  · obtain ⟨p', hp'⟩ := hc a' q i hca
    exact ⟨a ++ p', by rw [hp, hp', List.append_assoc]⟩
  · cases c' with
    | nil =>
      obtain ⟨p', hp'⟩ := hc [] q i (by simpa using hq.symm)
      simp at hp'
    | cons x c'' =>
      rw [List.cons_append] at hq
      injection hq with hx hq'
      subst hx
      exact ha p c'' i hap

theorem waitsBeforeDeletes_fences (js : List Nat) :
    waitsBeforeDeletes (js.map GLCall.FenceSync) := by
  apply waitsBeforeDeletes_of_no_delete
  intro i hc
  obtain ⟨j, -, hj⟩ := List.mem_map.mp hc
  cases hj

theorem waitsBeforeDeletes_waitAndDelete (j : Nat) : waitsBeforeDeletes (waitAndDelete j) := by
  intro p q i hl
  unfold waitAndDelete at hl
  cases p with
  | nil => simp at hl
  | cons x p' =>
    cases p' with
    | nil =>
      simp at hl
      obtain ⟨hx, hi, -⟩ := hl
      exact ⟨[], by simp [← hx, hi]⟩
    | cons y p'' => simp at hl

theorem waitsBeforeDeletes_waits (js : List Nat) :
    waitsBeforeDeletes (js.flatMap waitAndDelete) := by
  induction js with
  | nil => exact waitsBeforeDeletes_of_no_delete _ (by simp)
  | cons j js ih =>
    rw [List.flatMap_cons]
    exact waitsBeforeDeletes_append _ _ (waitsBeforeDeletes_waitAndDelete j) ih

/-- The calls of one `AllocMemory`: the state after it extends the call sequence by a
block in which every delete directly follows the wait on the same slot. -/
theorem AllocMemory_calls (b : StreamBuffer) (size : Nat) :
    ∃ new : List GLCall, (b.AllocMemory size).gl = b.gl ++ new ∧ waitsBeforeDeletes new := by
  rw [AllocMemory_eq]
  split
  · refine ⟨(forRange (b.SLOT b.m_used_iterator) (b.SLOT b.m_iterator)).map GLCall.FenceSync
        ++ (forRange (b.SLOT b.m_free_iterator + 1)
            (min (b.SLOT (b.m_iterator + size) + 1) SYNC_POINTS)).flatMap waitAndDelete
        ++ (forRange (b.SLOT b.m_iterator) SYNC_POINTS).map GLCall.FenceSync
        ++ (forRange 0 (b.SLOT size + 1)).flatMap waitAndDelete, ?_, ?_⟩
    · simp only [List.append_assoc]
    · exact waitsBeforeDeletes_append _ _
        (waitsBeforeDeletes_append _ _
          (waitsBeforeDeletes_append _ _ (waitsBeforeDeletes_fences _)
            (waitsBeforeDeletes_waits _))
          (waitsBeforeDeletes_fences _))
        (waitsBeforeDeletes_waits _)
  · refine ⟨(forRange (b.SLOT b.m_used_iterator) (b.SLOT b.m_iterator)).map GLCall.FenceSync
        ++ (forRange (b.SLOT b.m_free_iterator + 1)
            (min (b.SLOT (b.m_iterator + size) + 1) SYNC_POINTS)).flatMap waitAndDelete, ?_, ?_⟩
    · simp only [List.append_assoc]
    · exact waitsBeforeDeletes_append _ _ (waitsBeforeDeletes_fences _)
        (waitsBeforeDeletes_waits _)

theorem Map_calls (b : StreamBuffer) (size stride : Nat)
    (hk : b.strategy.fenceSynced = true) :
    ∃ new : List GLCall, (b.Map size stride).2.gl = b.gl ++ new ∧ waitsBeforeDeletes new := by
  obtain ⟨extra, hextra, hm⟩ := Map_fenceSynced b size stride hk
  obtain ⟨new, hnew, hw⟩ := AllocMemory_calls (b.Align stride) size
  rw [Align_gl] at hnew
  refine ⟨new ++ extra, ?_, ?_⟩
  · rw [hm]
    show ((b.Align stride).AllocMemory size).gl ++ extra = _
    rw [hnew, List.append_assoc]
  · apply waitsBeforeDeletes_append _ _ hw
    apply waitsBeforeDeletes_of_no_delete
    rcases hextra with rfl | ⟨t, o, n, rfl⟩ <;> simp

theorem Unmap_calls (b : StreamBuffer) (used : Nat) :
    ∃ new : List GLCall, (b.Unmap used).gl = b.gl ++ new ∧ waitsBeforeDeletes new := by
  unfold Unmap
  cases hs : b.strategy
  all_goals
    simp only [issue]
    first
      | exact ⟨_, rfl, waitsBeforeDeletes_of_no_delete _ (by simp)⟩
      | exact ⟨[], (List.append_nil _).symm, waitsBeforeDeletes_of_no_delete _ (by simp)⟩

theorem run_calls (b : StreamBuffer) (cs : List Cycle)
    (hk : b.strategy.fenceSynced = true) :
    ∃ new : List GLCall, (b.run cs).gl = b.gl ++ new ∧ waitsBeforeDeletes new := by
  induction cs generalizing b with
  | nil => exact ⟨[], by simp [run], waitsBeforeDeletes_of_no_delete _ (by simp)⟩
  | cons c cs ih =>
    obtain ⟨n1, h1, w1⟩ := Map_calls b c.size c.stride hk
    obtain ⟨n2, h2, w2⟩ := Unmap_calls (b.Map c.size c.stride).2 c.used
    obtain ⟨n3, h3, w3⟩ := ih (b.cycle c) (by rw [cycle_strategy]; exact hk)
    refine ⟨n1 ++ n2 ++ n3, ?_, ?_⟩
    · show ((b.cycle c).run cs).gl = _
      rw [h3]
      unfold cycle
      rw [h2, h1]
      simp only [List.append_assoc]
    · exact waitsBeforeDeletes_append _ _ (waitsBeforeDeletes_append _ _ w1 w2) w3

/-! ### Reclaim precedes reuse -/

/-- A slot that held a live marker and holds none after further calls has had its
marker deleted by one of them. -/
theorem mem_delete_of_foldl_liveStep (cs : List GLCall) (i : Nat)
    (h : cs.foldl (liveStep i) true = false) : GLCall.DeleteSync i ∈ cs := by
  induction cs with
  | nil => simp at h
  | cons c cs ih =>
    rw [List.foldl_cons] at h
    by_cases hc : c = GLCall.DeleteSync i
    · rw [hc]; exact List.mem_cons_self _ _
    · have hstep : liveStep i true c = true := by
        cases c with
        | FenceSync j => simp [liveStep]
        | DeleteSync j =>
          have hji : j ≠ i := fun hji => hc (by rw [hji])
          simp [liveStep, hji]
        | _ => rfl
      rw [hstep] at h
      exact List.mem_cons_of_mem _ (ih h)

/-- The constructor of a fence-synced class leaves a live marker in each of the 16
slots. -/
theorem live_construct (k : Strategy) (type size i : Nat)
    (hk : k.fenceSynced = true) (hi : i < SYNC_POINTS) :
    live (construct k type size).gl i = true := by
  have hmem : i ∈ forRange 0 SYNC_POINTS := (mem_forRange _ _ _).mpr ⟨Nat.zero_le _, hi⟩
  have hcf : ∀ c : StreamBuffer, live c.CreateFences.gl i = true := by
    intro c
    show live (c.gl ++ (forRange 0 SYNC_POINTS).map GLCall.FenceSync) i = true
    rw [live_append, foldl_liveStep_fences, if_pos hmem]
  cases k
  · exact absurd hk (by decide)
  · show live ((base Strategy.MapAndSync type size).CreateFences.gl ++ _) i = true
    rw [live_append, hcf]; rfl
  · show live ((base Strategy.BufferStorage type size).CreateFences.gl ++ _) i = true
    rw [live_append, hcf]; rfl
  · show live ((base Strategy.PinnedMemory type size).CreateFences.gl ++ _) i = true
    rw [live_append, hcf]; rfl
  · exact absurd hk (by decide)
  · exact absurd hk (by decide)

/-- C1, the code at the failing input.  On the freshly constructed scenario buffer
(capacity 1024, no pair executed yet) `Map(100, 4)` returns offset 0, and slot 0, which
contains byte 0 of the range `[0, 100)`, still holds the live marker created by
`CreateFences`: the reclaim loop starts at `SLOT(0) + 1 = 1`, so no call has waited on
that marker or deleted it. -/
theorem Map_hands_out_live_slot :
    ((scenarioBuffer.run []).Map 100 4).1 = 0 ∧
      ((scenarioBuffer.run []).Map 100 4).2.SLOT 0 = 0 ∧
      live ((scenarioBuffer.run []).Map 100 4).2.gl
        (((scenarioBuffer.run []).Map 100 4).2.SLOT 0) = true ∧
      callsSince (scenarioBuffer.run []) ((scenarioBuffer.run []).Map 100 4).2 =
        [GLCall.ClientWaitSync 1, GLCall.DeleteSync 1,
          GLCall.MapBufferRange GL_ARRAY_BUFFER 0 100] ∧
      GLCall.ClientWaitSync 0 ∉ ((scenarioBuffer.run []).Map 100 4).2.gl ∧
      GLCall.DeleteSync 0 ∉ ((scenarioBuffer.run []).Map 100 4).2.gl := by
  decide

/-! ### Calls issued by one operation -/

theorem callsSince_of_append (b b' : StreamBuffer) (new : List GLCall)
    (h : b'.gl = b.gl ++ new) : callsSince b b' = new := by
  unfold callsSince
  rw [h]
  exact List.drop_left _ _

theorem callsSince_issue (b : StreamBuffer) (cs : List GLCall) :
    callsSince b (b.issue cs) = cs :=
  callsSince_of_append b _ cs rfl

/-- `Map` of Staging Copy and Full Reupload returns offset 0 and changes nothing. -/
theorem Map_copying (b : StreamBuffer) (size stride : Nat)
    (hk : b.strategy = Strategy.BufferSubData ∨ b.strategy = Strategy.BufferData) :
    b.Map size stride = (0, b) := by
  unfold Map
  rcases hk with hk | hk <;> rw [hk]

/-- `Unmap` of Staging Copy and Full Reupload only uploads: the positions stay. -/
theorem Unmap_copying (b : StreamBuffer) (used : Nat)
    (hk : b.strategy = Strategy.BufferSubData ∨ b.strategy = Strategy.BufferData) :
    (b.Unmap used).m_iterator = b.m_iterator ∧
      (b.Unmap used).m_used_iterator = b.m_used_iterator ∧
      (b.Unmap used).m_free_iterator = b.m_free_iterator := by
  unfold Unmap
  rcases hk with hk | hk <;> rw [hk] <;> exact ⟨rfl, rfl, rfl⟩

theorem cycle_copying (b : StreamBuffer) (c : Cycle)
    (hk : b.strategy = Strategy.BufferSubData ∨ b.strategy = Strategy.BufferData) :
    (b.cycle c).m_iterator = b.m_iterator ∧
      (b.cycle c).m_used_iterator = b.m_used_iterator ∧
      (b.cycle c).m_free_iterator = b.m_free_iterator := by
  unfold cycle
  rw [Map_copying b c.size c.stride hk]
  exact Unmap_copying b c.used hk

theorem run_copying (b : StreamBuffer) (cs : List Cycle)
    (hk : b.strategy = Strategy.BufferSubData ∨ b.strategy = Strategy.BufferData) :
    (b.run cs).m_iterator = b.m_iterator ∧
      (b.run cs).m_used_iterator = b.m_used_iterator ∧
      (b.run cs).m_free_iterator = b.m_free_iterator := by
  induction cs generalizing b with
  | nil => exact ⟨rfl, rfl, rfl⟩
  | cons c cs ih =>
    show ((b.cycle c).run cs).m_iterator = _ ∧ ((b.cycle c).run cs).m_used_iterator = _ ∧
      ((b.cycle c).run cs).m_free_iterator = _
    obtain ⟨h1, h2, h3⟩ := ih (b.cycle c) (by rw [cycle_strategy]; exact hk)
    obtain ⟨g1, g2, g3⟩ := cycle_copying b c hk
    exact ⟨h1.trans g1, h2.trans g2, h3.trans g3⟩

/-- C18. Staging Copy (`BufferSubData`) and Full Reupload (`BufferData`) ignore the
cursor: in every state and for every size and stride `Map` returns offset 0 and leaves
the state as it is, `Unmap` changes none of the three positions, and along every
sequence of `Map`/`Unmap` pairs from construction all three positions are 0. -/
theorem copying_ignores_cursor (k : Strategy)
    (hk : k = Strategy.BufferSubData ∨ k = Strategy.BufferData) :
    (∀ (b : StreamBuffer) (size stride used : Nat), b.strategy = k →
      (b.Map size stride).1 = 0 ∧
      (b.Map size stride).2 = b ∧
      (b.Unmap used).m_iterator = b.m_iterator ∧
      (b.Unmap used).m_used_iterator = b.m_used_iterator ∧
      (b.Unmap used).m_free_iterator = b.m_free_iterator) ∧
    (∀ (type S : Nat) (cs : List Cycle) (size stride : Nat),
      ((construct k type S).run cs).m_iterator = 0 ∧
      ((construct k type S).run cs).m_used_iterator = 0 ∧
      ((construct k type S).run cs).m_free_iterator = 0 ∧
      (((construct k type S).run cs).Map size stride).1 = 0) := by
  constructor
  · intro b size stride used hb
    have hb' : b.strategy = Strategy.BufferSubData ∨ b.strategy = Strategy.BufferData := by
      rw [hb]; exact hk
    rw [Map_copying b size stride hb']
    exact ⟨rfl, rfl, Unmap_copying b used hb'⟩
  · intro type S cs size stride
    have hc : (construct k type S).strategy = Strategy.BufferSubData ∨
        (construct k type S).strategy = Strategy.BufferData := by
      rw [construct_strategy]; exact hk
    have hr : ((construct k type S).run cs).strategy = Strategy.BufferSubData ∨
        ((construct k type S).run cs).strategy = Strategy.BufferData := by
      rw [run_strategy]; exact hc
    obtain ⟨h1, h2, h3⟩ := run_copying (construct k type S) cs hc
    have h0 : (construct k type S).m_iterator = 0 ∧ (construct k type S).m_used_iterator = 0 ∧
        (construct k type S).m_free_iterator = 0 := by
      cases k <;> exact ⟨rfl, rfl, rfl⟩
    rw [Map_copying _ size stride hr]
    exact ⟨h1.trans h0.1, h2.trans h0.2.1, h3.trans h0.2.2, rfl⟩

/-- Witness for C18: a Staging Copy buffer of capacity 1024 after `Map(100, 4)`,
`Unmap(100)`: the next `Map(500, 16)` returns offset 0, leaves the state as it is, and
the cursor is still 0. -/
theorem copying_ignores_cursor_witness :
    ((construct Strategy.BufferSubData GL_ARRAY_BUFFER 1024).run [⟨100, 4, 100⟩]).strategy =
        Strategy.BufferSubData ∧
      (((construct Strategy.BufferSubData GL_ARRAY_BUFFER 1024).run [⟨100, 4, 100⟩]).Map
        500 16).1 = 0 ∧
      (((construct Strategy.BufferSubData GL_ARRAY_BUFFER 1024).run [⟨100, 4, 100⟩]).Map
        500 16).2 = (construct Strategy.BufferSubData GL_ARRAY_BUFFER 1024).run [⟨100, 4, 100⟩] ∧
      ((construct Strategy.BufferSubData GL_ARRAY_BUFFER 1024).run [⟨100, 4, 100⟩]).m_iterator
        = 0 :=
  ⟨by decide,
    ((copying_ignores_cursor Strategy.BufferSubData (Or.inl rfl)).1
      ((construct Strategy.BufferSubData GL_ARRAY_BUFFER 1024).run [⟨100, 4, 100⟩])
      500 16 0 (by decide)).1,
    ((copying_ignores_cursor Strategy.BufferSubData (Or.inl rfl)).1
      ((construct Strategy.BufferSubData GL_ARRAY_BUFFER 1024).run [⟨100, 4, 100⟩])
      500 16 0 (by decide)).2.1,
    ((copying_ignores_cursor Strategy.BufferSubData (Or.inl rfl)).2 GL_ARRAY_BUFFER 1024
      [⟨100, 4, 100⟩] 500 16).1⟩

/-! ### The steps of `AllocMemory` -/

theorem mem_fences (js : List Nat) (i : Nat) :
    GLCall.FenceSync i ∈ js.map GLCall.FenceSync ↔ i ∈ js := by
  constructor
  · intro h
    by_contra hc
    exact not_mem_fences_of_not_mem js i hc h
  · intro h
    exact List.mem_map.mpr ⟨i, h, rfl⟩

theorem wait_not_mem_fences (js : List Nat) (i : Nat) :
    GLCall.ClientWaitSync i ∉ js.map GLCall.FenceSync := by
  intro hc
  obtain ⟨j, -, hj⟩ := List.mem_map.mp hc
  cases hj

theorem delete_not_mem_fences (js : List Nat) (i : Nat) :
    GLCall.DeleteSync i ∉ js.map GLCall.FenceSync := by
  intro hc
  obtain ⟨j, -, hj⟩ := List.mem_map.mp hc
  cases hj

theorem wait_mem_waits (js : List Nat) (i : Nat) :
    GLCall.ClientWaitSync i ∈ js.flatMap waitAndDelete ↔ i ∈ js := by
  rw [List.mem_flatMap]
  constructor
  · rintro ⟨j, hj, hm⟩
    simp [waitAndDelete] at hm
    rw [hm]; exact hj
  · intro h
    exact ⟨i, h, by simp [waitAndDelete]⟩

theorem delete_mem_waits (js : List Nat) (i : Nat) :
    GLCall.DeleteSync i ∈ js.flatMap waitAndDelete ↔ i ∈ js := by
  rw [List.mem_flatMap]
  constructor
  · rintro ⟨j, hj, hm⟩
    simp [waitAndDelete] at hm
    rw [hm]; exact hj
  · intro h
    exact ⟨i, h, by simp [waitAndDelete]⟩

/-- The calls of an `AllocMemory` that does not take the full-buffer branch. -/
theorem AllocMemory_calls_fit (b : StreamBuffer) (size : Nat)
    (hfit : b.m_iterator + size < b.m_size) :
    callsSince b (b.AllocMemory size) =
      (forRange (b.SLOT b.m_used_iterator) (b.SLOT b.m_iterator)).map GLCall.FenceSync
        ++ (forRange (b.SLOT b.m_free_iterator + 1)
            (min (b.SLOT (b.m_iterator + size) + 1) SYNC_POINTS)).flatMap waitAndDelete := by
  apply callsSince_of_append
  rw [AllocMemory_eq, if_neg (Nat.not_le_of_lt hfit)]
  simp only [List.append_assoc]

/-- The calls of an `AllocMemory` that takes the full-buffer branch. -/
theorem AllocMemory_calls_full (b : StreamBuffer) (size : Nat)
    (hfull : b.m_size ≤ b.m_iterator + size) :
    callsSince b (b.AllocMemory size) =
      (forRange (b.SLOT b.m_used_iterator) (b.SLOT b.m_iterator)).map GLCall.FenceSync
        ++ ((forRange (b.SLOT b.m_free_iterator + 1)
            (min (b.SLOT (b.m_iterator + size) + 1) SYNC_POINTS)).flatMap waitAndDelete
        ++ ((forRange (b.SLOT b.m_iterator) SYNC_POINTS).map GLCall.FenceSync
        ++ (forRange 0 (b.SLOT size + 1)).flatMap waitAndDelete)) := by
  apply callsSince_of_append
  rw [AllocMemory_eq, if_pos hfull]
  simp only [List.append_assoc]

/-- C16, counterexample. On the scenario buffer after `Map(100, 4)`, `Unmap(100)` the
committed range is `[0, 100)`; byte 64 of it lies in slot 1, but the next `Map(100, 4)`
creates a marker for slot 0 only: its calls are one `FenceSync` on slot 0, the waits and
deletes of slots 2 and 3, and the mapping call. -/
theorem AllocMemory_retire_counterexample :
    (scenarioBuffer.cycle ⟨100, 4, 100⟩).m_used_iterator = 0 ∧
      (scenarioBuffer.cycle ⟨100, 4, 100⟩).m_iterator = 100 ∧
      (scenarioBuffer.cycle ⟨100, 4, 100⟩).SLOT 64 = 1 ∧
      callsSince (scenarioBuffer.cycle ⟨100, 4, 100⟩)
          ((scenarioBuffer.cycle ⟨100, 4, 100⟩).Map 100 4).2 =
        [GLCall.FenceSync 0, GLCall.ClientWaitSync 2, GLCall.DeleteSync 2,
          GLCall.ClientWaitSync 3, GLCall.DeleteSync 3,
          GLCall.MapBufferRange GL_ARRAY_BUFFER 100 100] ∧
      GLCall.FenceSync 1 ∉ callsSince (scenarioBuffer.cycle ⟨100, 4, 100⟩)
          ((scenarioBuffer.cycle ⟨100, 4, 100⟩).Map 100 4).2 := by
  decide

/-- C16, amended. Retirement of committed writes: the calls of `AllocMemory` begin with
a marker for each slot `i` with `SLOT(old m_used_iterator) ≤ i < SLOT(m_iterator)`, in
increasing order, that is for the slots from the one holding the old committed position
up to, but not including, the one holding the cursor; on a call that does not wrap no
other marker is created, so the slot holding the cursor gets none; on return
`m_used_iterator` equals `m_iterator`. -/
theorem AllocMemory_retires_left_slots (b : StreamBuffer) (size : Nat) :
    (∃ rest : List GLCall,
      callsSince b (b.AllocMemory size) =
        (forRange (b.SLOT b.m_used_iterator) (b.SLOT b.m_iterator)).map GLCall.FenceSync
          ++ rest) ∧
      (∀ i, GLCall.FenceSync i ∈
          (forRange (b.SLOT b.m_used_iterator) (b.SLOT b.m_iterator)).map GLCall.FenceSync ↔
        (b.SLOT b.m_used_iterator ≤ i ∧ i < b.SLOT b.m_iterator)) ∧
      (b.m_iterator + size < b.m_size →
        ∀ i, GLCall.FenceSync i ∈ callsSince b (b.AllocMemory size) ↔
          (b.SLOT b.m_used_iterator ≤ i ∧ i < b.SLOT b.m_iterator)) ∧
      (b.AllocMemory size).m_used_iterator = (b.AllocMemory size).m_iterator := by
  refine ⟨?_, ?_, ?_, ?_⟩
  · by_cases hfit : b.m_iterator + size < b.m_size
    · exact ⟨_, AllocMemory_calls_fit b size hfit⟩
    · exact ⟨_, AllocMemory_calls_full b size (Nat.le_of_not_lt hfit)⟩
  · intro i
    rw [mem_fences, mem_forRange]
  · intro hfit i
    rw [AllocMemory_calls_fit b size hfit, List.mem_append, mem_fences, mem_forRange]
    constructor
    · rintro (h | h)
      · exact h
      · exact absurd h (not_mem_waits _ _)
    · intro h; exact Or.inl h
  · rw [AllocMemory_used, AllocMemory_m_iterator]

/-- Witness for C16 (amended): the scenario buffer after `Map(300, 4)`, `Unmap(300)` has
the committed range `[0, 300)`; the next `AllocMemory(100)` does not wrap and creates
markers for slots 0 to 3, not for slot 4, which holds the cursor. -/
theorem AllocMemory_retires_left_slots_witness :
    (scenarioBuffer.cycle ⟨300, 4, 300⟩).m_iterator + 100 <
        (scenarioBuffer.cycle ⟨300, 4, 300⟩).m_size ∧
      (scenarioBuffer.cycle ⟨300, 4, 300⟩).SLOT
        (scenarioBuffer.cycle ⟨300, 4, 300⟩).m_used_iterator = 0 ∧
      (scenarioBuffer.cycle ⟨300, 4, 300⟩).SLOT
        (scenarioBuffer.cycle ⟨300, 4, 300⟩).m_iterator = 4 ∧
      GLCall.FenceSync 3 ∈ callsSince (scenarioBuffer.cycle ⟨300, 4, 300⟩)
        ((scenarioBuffer.cycle ⟨300, 4, 300⟩).AllocMemory 100) ∧
      GLCall.FenceSync 4 ∉ callsSince (scenarioBuffer.cycle ⟨300, 4, 300⟩)
        ((scenarioBuffer.cycle ⟨300, 4, 300⟩).AllocMemory 100) :=
  ⟨by decide, by decide, by decide,
    (((AllocMemory_retires_left_slots (scenarioBuffer.cycle ⟨300, 4, 300⟩) 100).2.2.1
      (by decide)) 3).mpr (by decide),
    fun h => absurd
      ((((AllocMemory_retires_left_slots (scenarioBuffer.cycle ⟨300, 4, 300⟩) 100).2.2.1
        (by decide)) 4).mp h).2 (by decide)⟩

/-- C19, counterexample. Capacity 1024, cursor at 1000: `AllocMemory(100)` takes the
full-buffer branch and returns with `m_iterator = m_used_iterator = 0` but
`m_free_iterator = 100`. -/
theorem AllocMemory_wrap_counterexample :
    (scenarioBuffer.cycle ⟨1000, 1, 1000⟩).m_iterator = 1000 ∧
      (scenarioBuffer.cycle ⟨1000, 1, 1000⟩).m_size ≤
        (scenarioBuffer.cycle ⟨1000, 1, 1000⟩).m_iterator + 100 ∧
      ((scenarioBuffer.cycle ⟨1000, 1, 1000⟩).AllocMemory 100).m_iterator = 0 ∧
      ((scenarioBuffer.cycle ⟨1000, 1, 1000⟩).AllocMemory 100).m_used_iterator = 0 ∧
      ((scenarioBuffer.cycle ⟨1000, 1, 1000⟩).AllocMemory 100).m_free_iterator = 100 ∧
      ((scenarioBuffer.cycle ⟨1000, 1, 1000⟩).AllocMemory 100).m_free_iterator ≠ 0 := by
  decide

/-- C19, amended. Full-wrap reset: whenever `AllocMemory(size)` takes the wraparound
branch (`m_iterator + size >= m_size`), on return `m_iterator` and `m_used_iterator` are
0 and `m_free_iterator` is `size`, the end of the region handed out at the start of the
buffer; all three are 0 only for `size = 0`. -/
theorem AllocMemory_wrap_cursors (b : StreamBuffer) (size : Nat)
    (hfull : b.m_size ≤ b.m_iterator + size) :
    (b.AllocMemory size).m_iterator = 0 ∧
      (b.AllocMemory size).m_used_iterator = 0 ∧
      (b.AllocMemory size).m_free_iterator = size ∧
      ((b.AllocMemory size).m_free_iterator = 0 ↔ size = 0) := by
  have h3 : (b.AllocMemory size).m_free_iterator = size := by
    rw [AllocMemory_free, if_pos hfull]
  refine ⟨?_, ?_, h3, ?_⟩
  · rw [AllocMemory_m_iterator, if_pos hfull]
  · rw [AllocMemory_used, if_pos hfull]
  · rw [h3]

/-- Witness for C19 (amended): capacity 1024, cursor at 1000, `AllocMemory(100)`. -/
theorem AllocMemory_wrap_cursors_witness :
    (scenarioBuffer.cycle ⟨1000, 1, 1000⟩).m_size ≤
        (scenarioBuffer.cycle ⟨1000, 1, 1000⟩).m_iterator + 100 ∧
      ((scenarioBuffer.cycle ⟨1000, 1, 1000⟩).AllocMemory 100).m_iterator = 0 ∧
      ((scenarioBuffer.cycle ⟨1000, 1, 1000⟩).AllocMemory 100).m_used_iterator = 0 ∧
      ((scenarioBuffer.cycle ⟨1000, 1, 1000⟩).AllocMemory 100).m_free_iterator = 100 :=
  ⟨by decide,
    (AllocMemory_wrap_cursors (scenarioBuffer.cycle ⟨1000, 1, 1000⟩) 100 (by decide)).1,
    (AllocMemory_wrap_cursors (scenarioBuffer.cycle ⟨1000, 1, 1000⟩) 100 (by decide)).2.1,
    (AllocMemory_wrap_cursors (scenarioBuffer.cycle ⟨1000, 1, 1000⟩) 100 (by decide)).2.2.1⟩

/-! ### When `Map` resets the cursor -/

/-- The calls of `DeleteFences`: one delete for each slot behind the slot of
`m_free_iterator`, then one for each slot before the slot of `m_iterator`. -/
theorem DeleteFences_calls (b : StreamBuffer) :
    callsSince b b.DeleteFences =
      (forRange (b.SLOT b.m_free_iterator + 1) SYNC_POINTS).map GLCall.DeleteSync
        ++ (forRange 0 (b.SLOT b.m_iterator)).map GLCall.DeleteSync := by
  apply callsSince_of_append
  unfold DeleteFences
  simp only [issue, SLOT, List.append_assoc]

theorem DeleteFences_m_buffertype (b : StreamBuffer) :
    b.DeleteFences.m_buffertype = b.m_buffertype := rfl

theorem DeleteFences_gl (b : StreamBuffer) :
    b.DeleteFences.gl = b.gl ++ callsSince b b.DeleteFences := by
  rw [DeleteFences_calls]
  unfold DeleteFences
  simp only [issue, SLOT, List.append_assoc]

/-- The calls of the destructor of each class, ending with that of the base class. -/
theorem destroy_calls (b : StreamBuffer) :
    callsSince b b.destroy =
      (match b.strategy with
        | Strategy.MapAndSync => callsSince b b.DeleteFences
        | Strategy.BufferStorage => callsSince b b.DeleteFences ++
            [GLCall.UnmapBuffer b.m_buffertype, GLCall.BindBuffer b.m_buffertype false]
        | Strategy.PinnedMemory => callsSince b b.DeleteFences ++
            [GLCall.BindBuffer b.m_buffertype false, GLCall.Finish]
        | _ => []) ++ [GLCall.DeleteBuffers] := by
  apply callsSince_of_append
  unfold destroy
  cases hs : b.strategy <;>
    simp only [issue, DeleteFences_gl, DeleteFences_m_buffertype, List.append_assoc,
      List.nil_append]

theorem wait_not_mem_deletes (js : List Nat) (i : Nat) :
    GLCall.ClientWaitSync i ∉ js.map GLCall.DeleteSync := by
  intro hc
  obtain ⟨j, -, hj⟩ := List.mem_map.mp hc
  cases hj

theorem mem_deletes (js : List Nat) (i : Nat) :
    GLCall.DeleteSync i ∈ js.map GLCall.DeleteSync ↔ i ∈ js := by
  constructor
  · intro h
    obtain ⟨j, hj, hji⟩ := List.mem_map.mp h
    have : j = i := by injection hji
    exact this ▸ hj
  · intro h
    exact List.mem_map.mpr ⟨i, h, rfl⟩

theorem DeleteFences_no_wait (b : StreamBuffer) (i : Nat) :
    GLCall.ClientWaitSync i ∉ callsSince b b.DeleteFences := by
  rw [DeleteFences_calls, List.mem_append]
  rintro (h | h) <;> exact wait_not_mem_deletes _ _ h

theorem destroy_no_wait (b : StreamBuffer) (i : Nat) :
    GLCall.ClientWaitSync i ∉ callsSince b b.destroy := by
  have hd := DeleteFences_no_wait b i
  rw [destroy_calls]
  cases hs : b.strategy <;> simp [hd]

/-- A call sequence that starts with a delete has a delete without a wait before it. -/
theorem not_waitsBeforeDeletes_of_head (l : List GLCall) (i : Nat)
    (h : l.head? = some (GLCall.DeleteSync i)) : ¬ waitsBeforeDeletes l := by
  intro hw
  cases l with
  | nil => simp at h
  | cons c q =>
    simp at h
    subst h
    obtain ⟨p', hp'⟩ := hw [] q i rfl
    simp at hp'

/-- C13, counterexample. The scenario buffer after `Map(300, 4)`, `Unmap(300)`,
`Map(100, 4)`, `Unmap(100)`: slot 0 holds a live marker, created by the second `Map` for
the committed bytes; the destructor deletes it, and no wait on slot 0 occurs anywhere in
the life of the buffer.  The calls of the destructor start with a delete. -/
theorem destroy_wait_counterexample :
    GLCall.FenceSync 0 ∈ callsSince (scenarioBuffer.run [⟨300, 4, 300⟩])
        (scenarioBuffer.run [⟨300, 4, 300⟩, ⟨100, 4, 100⟩]) ∧
      live (scenarioBuffer.run [⟨300, 4, 300⟩, ⟨100, 4, 100⟩]).gl 0 = true ∧
      GLCall.DeleteSync 0 ∈ callsSince (scenarioBuffer.run [⟨300, 4, 300⟩, ⟨100, 4, 100⟩])
        (scenarioBuffer.run [⟨300, 4, 300⟩, ⟨100, 4, 100⟩]).destroy ∧
      GLCall.ClientWaitSync 0 ∉ (scenarioBuffer.run [⟨300, 4, 300⟩, ⟨100, 4, 100⟩]).destroy.gl ∧
      ¬ waitsBeforeDeletes (callsSince (scenarioBuffer.run [⟨300, 4, 300⟩, ⟨100, 4, 100⟩])
        (scenarioBuffer.run [⟨300, 4, 300⟩, ⟨100, 4, 100⟩]).destroy) :=
  ⟨by decide, by decide, by decide, by decide,
    not_waitsBeforeDeletes_of_head _ 7 (by decide)⟩

/-- C13, amended. Teardown destroys without draining: when a fence-synced buffer is
destroyed, every call of `DeleteFences` is a `glDeleteSync`, the destructor waits on no
marker, and what it issues after `DeleteFences` touches no marker; the only draining is
the `glFinish` of the `PinnedMemory` destructor, issued after `DeleteFences`. -/
theorem destroy_deletes_without_waiting (b : StreamBuffer)
    (hk : b.strategy.fenceSynced = true) :
    (∀ i, GLCall.ClientWaitSync i ∉ callsSince b b.destroy) ∧
      (∀ c ∈ callsSince b b.DeleteFences, ∃ i, c = GLCall.DeleteSync i) ∧
      (∃ rest : List GLCall,
        callsSince b b.destroy = callsSince b b.DeleteFences ++ rest ∧
        (∀ i, GLCall.DeleteSync i ∉ rest ∧ GLCall.ClientWaitSync i ∉ rest) ∧
        (GLCall.Finish ∈ rest ↔ b.strategy = Strategy.PinnedMemory)) := by
  refine ⟨destroy_no_wait b, ?_, ?_⟩
  · intro c hc
    rw [DeleteFences_calls, List.mem_append] at hc
    rcases hc with h | h <;>
    · obtain ⟨j, -, hj⟩ := List.mem_map.mp h
      exact ⟨j, hj.symm⟩
  · rw [destroy_calls]
    cases hs : b.strategy <;> simp only [hs, Strategy.fenceSynced] at hk ⊢
    · exact absurd hk (by decide)
    · exact ⟨[GLCall.DeleteBuffers], rfl, by simp, by simp⟩
    · exact ⟨[GLCall.UnmapBuffer b.m_buffertype, GLCall.BindBuffer b.m_buffertype false,
        GLCall.DeleteBuffers], by simp, by simp, by simp⟩
    · exact ⟨[GLCall.BindBuffer b.m_buffertype false, GLCall.Finish, GLCall.DeleteBuffers],
        by simp, by simp, by simp⟩
    · exact absurd hk (by decide)
    · exact absurd hk (by decide)

/-- Witness for C13 (amended): the destructor of the scenario buffer after `Map(300, 4)`,
`Unmap(300)`, `Map(100, 4)`, `Unmap(100)` deletes the live marker of slot 0 and waits on
no marker. -/
theorem destroy_deletes_without_waiting_witness :
    (scenarioBuffer.run [⟨300, 4, 300⟩, ⟨100, 4, 100⟩]).strategy.fenceSynced = true ∧
      live (scenarioBuffer.run [⟨300, 4, 300⟩, ⟨100, 4, 100⟩]).gl 0 = true ∧
      GLCall.DeleteSync 0 ∈ callsSince (scenarioBuffer.run [⟨300, 4, 300⟩, ⟨100, 4, 100⟩])
        (scenarioBuffer.run [⟨300, 4, 300⟩, ⟨100, 4, 100⟩]).destroy ∧
      GLCall.ClientWaitSync 0 ∉ callsSince (scenarioBuffer.run [⟨300, 4, 300⟩, ⟨100, 4, 100⟩])
        (scenarioBuffer.run [⟨300, 4, 300⟩, ⟨100, 4, 100⟩]).destroy :=
  ⟨by decide, by decide, by decide,
    (destroy_deletes_without_waiting (scenarioBuffer.run [⟨300, 4, 300⟩, ⟨100, 4, 100⟩])
      (by decide)).1 0⟩

/-- C14, counterexample. A Pinned Host Memory buffer of capacity 1024 after
`Map(100, 4)`, `Unmap(60)`, `Map(1000, 1)`, `Unmap(1000)`: none of the 16 slots holds a
live marker, yet the destructor calls `glFinish`, which blocks until the pipeline is
drained. -/
theorem destroy_finish_counterexample :
    (List.range 16).filter (fun i => live ((construct Strategy.PinnedMemory GL_ARRAY_BUFFER
        1024).run [⟨100, 4, 60⟩, ⟨1000, 1, 1000⟩]).gl i) = [] ∧
      GLCall.Finish ∈ callsSince
        ((construct Strategy.PinnedMemory GL_ARRAY_BUFFER 1024).run
          [⟨100, 4, 60⟩, ⟨1000, 1, 1000⟩])
        ((construct Strategy.PinnedMemory GL_ARRAY_BUFFER 1024).run
          [⟨100, 4, 60⟩, ⟨1000, 1, 1000⟩]).destroy := by
  decide

/-- C14, amended. Teardown without marker waits: in every state, so in particular in one
without outstanding markers, `DeleteFences` issues no marker wait and the destructor of
each of the six classes issues no marker wait; the one blocking call of a destructor is
the `glFinish` of `PinnedMemory`, issued in every state, and the other five classes
issue none. -/
theorem destroy_no_marker_wait (b : StreamBuffer) :
    (∀ i, GLCall.ClientWaitSync i ∉ callsSince b b.DeleteFences) ∧
      (∀ i, GLCall.ClientWaitSync i ∉ callsSince b b.destroy) ∧
      (GLCall.Finish ∈ callsSince b b.destroy ↔ b.strategy = Strategy.PinnedMemory) := by
  refine ⟨DeleteFences_no_wait b, destroy_no_wait b, ?_⟩
  have hf : GLCall.Finish ∉ callsSince b b.DeleteFences := by
    rw [DeleteFences_calls, List.mem_append]
    rintro (h | h) <;>
    · obtain ⟨j, -, hj⟩ := List.mem_map.mp h
      cases hj
  rw [destroy_calls]
  cases hs : b.strategy <;> simp [hf]

/-! ### Markers lost and deleted twice -/

/-- C11, the code at the failing input.  Scenario buffer, `Map(100, 4)`, `Unmap(100)`,
`Map(100, 4)`: before the second `Map` slot 0 still holds the live marker of
`CreateFences` (no call has waited on it or deleted it, and nothing has been overwritten
so far); the first call of the second `Map` is `fences[0] = glFenceSync(..)`, which
overwrites that live marker. -/
theorem AllocMemory_overwrites_live_marker :
    overwrittenMarkers [] (scenarioBuffer.cycle ⟨100, 4, 100⟩).gl = [] ∧
      live (scenarioBuffer.cycle ⟨100, 4, 100⟩).gl 0 = true ∧
      GLCall.ClientWaitSync 0 ∉ (scenarioBuffer.cycle ⟨100, 4, 100⟩).gl ∧
      GLCall.DeleteSync 0 ∉ (scenarioBuffer.cycle ⟨100, 4, 100⟩).gl ∧
      callsSince (scenarioBuffer.cycle ⟨100, 4, 100⟩)
          ((scenarioBuffer.cycle ⟨100, 4, 100⟩).Map 100 4).2 =
        [GLCall.FenceSync 0, GLCall.ClientWaitSync 2, GLCall.DeleteSync 2,
          GLCall.ClientWaitSync 3, GLCall.DeleteSync 3,
          GLCall.MapBufferRange GL_ARRAY_BUFFER 100 100] ∧
      overwrittenMarkers (scenarioBuffer.cycle ⟨100, 4, 100⟩).gl
          (callsSince (scenarioBuffer.cycle ⟨100, 4, 100⟩)
            ((scenarioBuffer.cycle ⟨100, 4, 100⟩).Map 100 4).2) = [0] := by
  decide

/-- C12, the code at two failing inputs.  Destroying the fresh scenario buffer:
`DeleteFences` deletes the markers of slots 1 to 15 and leaves the live marker of slot 0
undeleted.  Destroying it after `Map(200, 4)`, `Unmap(200)`: slots 1 and 2 hold no live
marker (`AllocMemory` waited on and deleted them), and `DeleteFences` deletes them
again. -/
theorem DeleteFences_leaks_and_deletes_twice :
    (live scenarioBuffer.gl 0 = true ∧
      callsSince scenarioBuffer scenarioBuffer.DeleteFences =
        (forRange 1 16).map GLCall.DeleteSync ∧
      GLCall.DeleteSync 0 ∉ callsSince scenarioBuffer scenarioBuffer.DeleteFences ∧
      live scenarioBuffer.DeleteFences.gl 0 = true ∧
      live scenarioBuffer.destroy.gl 0 = true) ∧
    (live (scenarioBuffer.cycle ⟨200, 4, 200⟩).gl 1 = false ∧
      live (scenarioBuffer.cycle ⟨200, 4, 200⟩).gl 2 = false ∧
      callsSince (scenarioBuffer.cycle ⟨200, 4, 200⟩)
          (scenarioBuffer.cycle ⟨200, 4, 200⟩).DeleteFences =
        (forRange 4 16).map GLCall.DeleteSync ++
          [GLCall.DeleteSync 0, GLCall.DeleteSync 1, GLCall.DeleteSync 2] ∧
      staleDeletes (scenarioBuffer.cycle ⟨200, 4, 200⟩).gl
          (callsSince (scenarioBuffer.cycle ⟨200, 4, 200⟩)
            (scenarioBuffer.cycle ⟨200, 4, 200⟩).DeleteFences) = [1, 2]) := by
  decide

/-! ### The returned region -/

theorem mem_fenceIndices (cs : List GLCall) (i : Nat) :
    i ∈ fenceIndices cs ↔
      GLCall.FenceSync i ∈ cs ∨ GLCall.ClientWaitSync i ∈ cs ∨ GLCall.DeleteSync i ∈ cs := by
  unfold fenceIndices
  rw [List.mem_filterMap]
  constructor
  · rintro ⟨c, hc, hi⟩
    cases c <;> simp [GLCall.fenceIndex] at hi
    · subst hi; exact Or.inl hc
    · subst hi; exact Or.inr (Or.inl hc)
    · subst hi; exact Or.inr (Or.inr hc)
  · rintro (h | h | h)
    · exact ⟨_, h, rfl⟩
    · exact ⟨_, h, rfl⟩
    · exact ⟨_, h, rfl⟩

/-- Where `AllocMemory` stays inside `fences`: when the slot of the cursor is at most 16
and the request is smaller than the capacity, every index it uses is below 16. -/
theorem AllocMemory_indices_lt (b : StreamBuffer) (size : Nat)
    (hcur : b.SLOT b.m_iterator ≤ SYNC_POINTS) (hsize : size < b.m_size) :
    ∀ i ∈ fenceIndices (callsSince b (b.AllocMemory size)), i < SYNC_POINTS := by
  intro i hi
  rw [mem_fenceIndices] at hi
  have hS : b.SLOT size < SYNC_POINTS := SLOT_lt b hsize
  by_cases hfit : b.m_iterator + size < b.m_size
  · rw [AllocMemory_calls_fit b size hfit] at hi
    simp only [List.mem_append, mem_fences, wait_mem_waits, delete_mem_waits, mem_forRange,
      Nat.lt_min] at hi
    rcases hi with (h | h) | (h | h) | (h | h)
    · omega
    · exact absurd h (not_mem_waits _ _)
    · exact absurd h (wait_not_mem_fences _ _)
    · omega
    · exact absurd h (delete_not_mem_fences _ _)
    · omega
  · rw [AllocMemory_calls_full b size (Nat.le_of_not_lt hfit)] at hi
    simp only [List.mem_append, mem_fences, wait_mem_waits, delete_mem_waits, mem_forRange,
      Nat.lt_min] at hi
    rcases hi with (h | h | h | h) | (h | h | h | h) | (h | h | h | h)
    · omega
    · exact absurd h (not_mem_waits _ _)
    · omega
    · exact absurd h (not_mem_waits _ _)
    · exact absurd h (wait_not_mem_fences _ _)
    · omega
    · exact absurd h (wait_not_mem_fences _ _)
    · omega
    · exact absurd h (delete_not_mem_fences _ _)
    · omega
    · exact absurd h (delete_not_mem_fences _ _)
    · omega

/-- Where `DeleteFences` stays inside `fences`: with the cursor inside the buffer every
index it uses is below 16. -/
theorem DeleteFences_indices_lt (b : StreamBuffer) (hcur : b.m_iterator ≤ b.m_size) :
    ∀ i ∈ fenceIndices (callsSince b b.DeleteFences), i < SYNC_POINTS := by
  intro i hi
  have hslot : b.SLOT b.m_iterator ≤ SYNC_POINTS := by
    unfold SLOT
    exact Nat.div_le_of_le_mul (le_trans (Nat.mod_le _ _) (Nat.mul_le_mul_right _ hcur))
  rw [mem_fenceIndices, DeleteFences_calls] at hi
  simp only [List.mem_append, mem_deletes, mem_forRange] at hi
  rcases hi with h | h | h
  · rcases h with h | h <;>
    · obtain ⟨j, -, hj⟩ := List.mem_map.mp h
      cases hj
  · rcases h with h | h <;> exact absurd h (wait_not_mem_deletes _ _)
  · rcases h with h | h <;> omega

/-- C22, the code at two failing inputs.  On the fresh scenario buffer `Map(1024, 1)`
(`size = m_size`) takes the full-buffer branch, whose last loop runs up to
`SLOT(1024) = 16` inclusive: it waits on and deletes `fences[16]`.  With the cursor at
1000, `Map(136, 136)` aligns the cursor to 1088, whose slot is 17, and the first loop of
`AllocMemory` writes `fences[16]`. -/
theorem AllocMemory_index_out_of_range :
    (scenarioBuffer.SLOT 1024 = 16 ∧
      GLCall.ClientWaitSync 16 ∈ callsSince scenarioBuffer (scenarioBuffer.Map 1024 1).2 ∧
      GLCall.DeleteSync 16 ∈ callsSince scenarioBuffer (scenarioBuffer.Map 1024 1).2 ∧
      (fenceIndices (callsSince scenarioBuffer (scenarioBuffer.Map 1024 1).2)).filter
        (fun i => decide (SYNC_POINTS ≤ i)) = [16, 16]) ∧
    ((scenarioBuffer.cycle ⟨1000, 1, 1000⟩).m_iterator = 1000 ∧
      ((scenarioBuffer.cycle ⟨1000, 1, 1000⟩).Align 136).m_iterator = 1088 ∧
      (scenarioBuffer.cycle ⟨1000, 1, 1000⟩).SLOT 1088 = 17 ∧
      GLCall.FenceSync 16 ∈ callsSince (scenarioBuffer.cycle ⟨1000, 1, 1000⟩)
        ((scenarioBuffer.cycle ⟨1000, 1, 1000⟩).Map 136 136).2 ∧
      (fenceIndices (callsSince (scenarioBuffer.cycle ⟨1000, 1, 1000⟩)
        ((scenarioBuffer.cycle ⟨1000, 1, 1000⟩).Map 136 136).2)).filter
        (fun i => decide (SYNC_POINTS ≤ i)) = [16]) := by
  decide

/-- C23, the code at the failing input.  Scenario buffer, `Map(500, 1)`, `Unmap(10)`,
`Map(10, 1)`, `Unmap(10)`: the first `Map` waited on and deleted slots 1 to 7 and left
`m_free_iterator = 500`; the second moved it back to 20.  No wait has hit a dead slot so
far.  The next `Map(600, 1)` starts its reclaim loop at `SLOT(20) + 1 = 1` and waits on
and deletes slots 1 to 9, of which 1 to 7 hold no live marker. -/
theorem AllocMemory_waits_on_deleted_marker :
    (scenarioBuffer.run [⟨500, 1, 10⟩]).m_free_iterator = 500 ∧
      (scenarioBuffer.run [⟨500, 1, 10⟩, ⟨10, 1, 10⟩]).m_free_iterator = 20 ∧
      (scenarioBuffer.run [⟨500, 1, 10⟩, ⟨10, 1, 10⟩]).m_iterator = 20 ∧
      staleWaits [] (scenarioBuffer.run [⟨500, 1, 10⟩, ⟨10, 1, 10⟩]).gl = [] ∧
      (List.range 16).filter (fun i => live (scenarioBuffer.run [⟨500, 1, 10⟩, ⟨10, 1, 10⟩]).gl i) =
        [0, 8, 9, 10, 11, 12, 13, 14, 15] ∧
      callsSince (scenarioBuffer.run [⟨500, 1, 10⟩, ⟨10, 1, 10⟩])
          ((scenarioBuffer.run [⟨500, 1, 10⟩, ⟨10, 1, 10⟩]).Map 600 1).2 =
        (forRange 1 10).flatMap waitAndDelete ++
          [GLCall.MapBufferRange GL_ARRAY_BUFFER 20 600] ∧
      staleWaits (scenarioBuffer.run [⟨500, 1, 10⟩, ⟨10, 1, 10⟩]).gl
          (callsSince (scenarioBuffer.run [⟨500, 1, 10⟩, ⟨10, 1, 10⟩])
            ((scenarioBuffer.run [⟨500, 1, 10⟩, ⟨10, 1, 10⟩]).Map 600 1).2) =
        [1, 2, 3, 4, 5, 6, 7] ∧
      staleDeletes (scenarioBuffer.run [⟨500, 1, 10⟩, ⟨10, 1, 10⟩]).gl
          (callsSince (scenarioBuffer.run [⟨500, 1, 10⟩, ⟨10, 1, 10⟩])
            ((scenarioBuffer.run [⟨500, 1, 10⟩, ⟨10, 1, 10⟩]).Map 600 1).2) =
        [1, 2, 3, 4, 5, 6, 7] := by
  decide

end StreamBuffer

end OGL
